import Mathlib

/-!
Shallow embedding of the faucet backend in `src/frontend/src/App.js`
(the express server half of the file) together with the frontend address
validator in `src/unnamed/part_000`.

Conventions of the embedding:
* JS timestamps (`Date.now()`, the values stored in `addressCooldowns`)
  are integers counting milliseconds, modelled as `Int` so that the JS
  subtraction `Date.now() - lastRequest` is ordinary integer subtraction.
* Wei amounts (`ethers.parseEther(...)`, balances returned by
  `provider.getBalance`) are `ethers` BigInt values, modelled as `Nat`
  (balances are non-negative).
* The chain client (`provider`, `faucetWallet`) is external I/O; one
  request's view of it is a `ChainEnv` record holding the two balance
  reads and the outcomes of `sendTransaction` and `transaction.wait(1)`.
* The handler of `POST /api/faucet` becomes the pure function
  `faucetHandler`, returning the HTTP response, the cooldown map after
  the request, and the trace of chain-mutating actions it performed.
-/

namespace Faucet

/-- Hexadecimal-digit test for one character: the character class
`[a-fA-F0-9]` of the frontend validator's regular expression. -/
def isHexDigitChar (c : Char) : Bool :=
  ('0' ≤ c && c ≤ '9') || ('a' ≤ c && c ≤ 'f') || ('A' ≤ c && c ≤ 'F')

/-- Frontend address validator (`src/unnamed/part_000`, lines 30-32):
`/^0x[a-fA-F0-9]{40}$/.test(address)` — the literal prefix `0x` followed by
exactly 40 hexadecimal digits, nothing else. -/
def isValidAddress (s : String) : Bool :=
  match s.data with
  | c1 :: c2 :: rest =>
      c1 == '0' && c2 == 'x' && rest.length == 40 && rest.all isHexDigitChar
  | _ => false

/-- Spec-language counterpart of one hexadecimal digit (case-insensitive). -/
def SpecHexDigit (c : Char) : Prop :=
  ('0' ≤ c ∧ c ≤ '9') ∨ ('a' ≤ c ∧ c ≤ 'f') ∨ ('A' ≤ c ∧ c ≤ 'F')

/-- Spec-language address shape, written from the spec's words rather than
from the code: a required `0x` prefix followed by exactly 40 hexadecimal
digits, in any letter casing. -/
def AddressShape (s : String) : Prop :=
  ∃ t : List Char, s.data = '0' :: 'x' :: t ∧ t.length = 40 ∧ ∀ c ∈ t, SpecHexDigit c

/-- Cooldown window (`App.js` backend line 176): `60 * 60 * 1000`
milliseconds, i.e. one hour / 3600 seconds. -/
def ADDRESS_COOLDOWN : Int := 60 * 60 * 1000

/-- The in-memory `addressCooldowns` map (`App.js` backend line 175):
normalized (lower-cased) address to last-disbursement timestamp. -/
abbrev CooldownMap := String → Option Int

/-- The state of `addressCooldowns` when the process starts: empty. -/
def CooldownMap.empty : CooldownMap := fun _ => none

/-- Backend `checkAddressCooldown` (`App.js` backend lines 214-220):

    const lastRequest = addressCooldowns.get(address.toLowerCase());
    if (lastRequest && Date.now() - lastRequest < ADDRESS_COOLDOWN) return false;
    return true;

The JS truthiness test `lastRequest && ...` is false when the entry is
absent and also when the stored number is `0`. -/
def checkAddressCooldown (cooldowns : CooldownMap) (now : Int) (address : String) : Bool :=
  match cooldowns address.toLower with
  | none => true
  | some lastRequest =>
      if lastRequest ≠ 0 ∧ now - lastRequest < ADDRESS_COOLDOWN then false else true

/-- Backend `updateAddressCooldown` (`App.js` backend lines 222-224):
`addressCooldowns.set(address.toLowerCase(), Date.now())`. -/
def updateAddressCooldown (cooldowns : CooldownMap) (now : Int) (address : String) : CooldownMap :=
  fun key => if key = address.toLower then some now else cooldowns key

/-- Amount disbursed per request (`App.js` backend line 202):
`ethers.parseEther('0.1')` = 10^17 wei. -/
def FAUCET_AMOUNT : Nat := 100000000000000000

/-- Minimum operating balance (`App.js` backend line 203):
`ethers.parseEther('1.0')` = 10^18 wei. -/
def MIN_BALANCE : Nat := 1000000000000000000

/-- Recipient-balance ceiling (`App.js` backend line 278):
`ethers.parseEther('5.0')` = 5 * 10^18 wei. -/
def maxRecipientBalance : Nat := 5000000000000000000

/-- Left-pads a digit list with `0` up to length `n`. -/
def padLeftZeros (l : List Char) (n : Nat) : List Char :=
  List.replicate (n - l.length) '0' ++ l

/-- Drops trailing `0` characters. -/
def dropTrailingZeros (l : List Char) : List Char :=
  (l.reverse.dropWhile (fun c => c = '0')).reverse

/-- Decimal rendering of a wei amount in ether units, as
`ethers.formatEther` produces it: integer part, a dot, and the fractional
part with trailing zeros removed (a lone `0` when the fraction is zero). -/
def formatEther (wei : Nat) : String :=
  let whole := wei / 1000000000000000000
  let frac := dropTrailingZeros (padLeftZeros (Nat.repr (wei % 1000000000000000000)).data 18)
  String.mk (Nat.repr whole).data ++ "." ++ (if frac.isEmpty then "0" else String.mk frac)

/-- Error codes the catch block of the handler distinguishes
(`App.js` backend lines 316-322): `INSUFFICIENT_FUNDS`, `NETWORK_ERROR`,
anything else. -/
inductive ErrCode
  | insufficientFunds
  | networkError
  | other
  deriving DecidableEq, Repr

/-- Outcome of `faucetWallet.sendTransaction(tx)`: the broadcast transaction
hash, or a thrown error. -/
inductive BroadcastOutcome
  | ok (txHash : String)
  | err (code : ErrCode)
  deriving DecidableEq, Repr

/-- Outcome of `transaction.wait(1)`: a receipt with a block number, or a
thrown error. -/
inductive ConfirmOutcome
  | ok (blockNumber : Nat)
  | err (code : ErrCode)
  deriving DecidableEq, Repr

/-- One request's view of the external chain client: the faucet wallet's
balance, the recipient's balance, and the outcomes of the broadcast and
the confirmation wait, in the order the handler would observe them. -/
structure ChainEnv where
  faucetBalance : Nat
  recipientBalance : Nat
  broadcast : BroadcastOutcome
  confirm : ConfirmOutcome
  deriving DecidableEq, Repr

/-- Body of a JSON response of `POST /api/faucet`: either the success
payload or an error object. -/
inductive Body
  | success (txHash : String) (amount : String) (blockNumber : Nat)
  | failure (error : String)
  deriving DecidableEq, Repr

/-- An HTTP response: status code plus JSON body. -/
structure Response where
  status : Nat
  body : Body
  deriving DecidableEq, Repr

/-- The catch block of the handler (`App.js` backend lines 312-323): maps a
thrown chain-client error to a response. -/
def errorResponse : ErrCode → Response
  | .insufficientFunds => ⟨503, .failure "Faucet has insufficient funds"⟩
  | .networkError => ⟨502, .failure "Network error. Please try again later."⟩
  | .other => ⟨500, .failure "Internal server error"⟩

/-- Chain-mutating actions of one request, in execution order: the
`sendTransaction` call, the `updateAddressCooldown` write, and the
`transaction.wait(1)` call. -/
inductive Event
  | broadcastAttempt
  | cooldownRecorded (address : String) (time : Int)
  | confirmAttempt
  deriving DecidableEq, Repr

/-- Result of one run of the handler: the HTTP response, the cooldown map
after the request, and the trace of chain-mutating actions. -/
structure HandlerResult where
  response : Response
  cooldowns : CooldownMap
  events : List Event

/-- Modelled from the spec: the backend validator (`App.js` backend lines
206-212) delegates to `ethers.isAddress`, a chain-client library function
that is not part of this repository. Spec section 4.1 fixes its contract:
true iff the input matches the fixed syntactic shape (required `0x` prefix,
40 hexadecimal digits), with chain-specific checksum rules delegated to the
library. We model the syntactic shape, which coincides with the
repository's own frontend validator. -/
def ethersIsAddress (s : String) : Bool := isValidAddress s

/-- The `POST /api/faucet` handler (`App.js` backend lines 248-324), as a
function of the request body's `address` field (`none` when absent), the
shared cooldown map, the current time, and the chain client's behaviour for
this request. The guards appear in source order: missing address, invalid
address, cooldown, faucet balance, recipient balance, broadcast,
cooldown update, confirmation wait, success response. The JS guard
`if (!address)` is also taken by an empty string, hence the `getD ""`. -/
def faucetHandler (env : ChainEnv) (cooldowns : CooldownMap) (now : Int)
    (addressField : Option String) : HandlerResult :=
  let address := addressField.getD ""
  if address = "" then
    ⟨⟨400, .failure "Address is required"⟩, cooldowns, []⟩
  else if ethersIsAddress address = false then
    ⟨⟨400, .failure "Invalid Ethereum address"⟩, cooldowns, []⟩
  else if checkAddressCooldown cooldowns now address = false then
    ⟨⟨429, .failure "This address has already requested funds recently. Please wait 1 hour."⟩,
      cooldowns, []⟩
  else if env.faucetBalance < MIN_BALANCE then
    ⟨⟨503, .failure "Faucet is running low on funds. Please contact the administrator."⟩,
      cooldowns, []⟩
  else if env.recipientBalance > maxRecipientBalance then
    ⟨⟨400, .failure "Recipient address already has sufficient funds"⟩, cooldowns, []⟩
  else
    match env.broadcast with
    | .err code => ⟨errorResponse code, cooldowns, [.broadcastAttempt]⟩
    | .ok txHash =>
        let cooldowns' := updateAddressCooldown cooldowns now address
        let events := [Event.broadcastAttempt, .cooldownRecorded address now, .confirmAttempt]
        match env.confirm with
        | .err code => ⟨errorResponse code, cooldowns', events⟩
        | .ok blockNumber =>
            ⟨⟨200, .success txHash (formatEther FAUCET_AMOUNT) blockNumber⟩, cooldowns', events⟩

/-- Phases of one in-flight request, for the interleaving analysis of two
concurrent requests. `checkAddressCooldown` (line 262) runs synchronously,
but between it and `updateAddressCooldown` (line 298) the handler awaits
the two `getBalance` calls and `sendTransaction`, so the event loop may run
another request's handler in between. -/
inductive Phase
  | start
  | passedCheck
  | rejectedCooldown
  | recorded
  deriving DecidableEq, Repr

/-- State of the system with two concurrent requests for the same address:
the shared cooldown map and each request's phase. -/
structure RaceState where
  cooldowns : CooldownMap
  req1 : Phase
  req2 : Phase

/-- One atomic step of a single request against the shared map: run the
synchronous cooldown check, or (after the awaited chain calls complete)
run the cooldown update. -/
def stepPhase (now : Int) (address : String) : Phase → CooldownMap → Phase × CooldownMap
  | .start, m =>
      if checkAddressCooldown m now address then (.passedCheck, m) else (.rejectedCooldown, m)
  | .passedCheck, m => (.recorded, updateAddressCooldown m now address)
  | p, m => (p, m)

/-- Schedules one atomic step of request 1 (`true`) or request 2 (`false`). -/
def raceStep (now : Int) (address : String) (which : Bool) (s : RaceState) : RaceState :=
  if which then
    let pm := stepPhase now address s.req1 s.cooldowns
    ⟨pm.2, pm.1, s.req2⟩
  else
    let pm := stepPhase now address s.req2 s.cooldowns
    ⟨pm.2, s.req1, pm.1⟩

/-- Runs a schedule of interleaved atomic steps of the two requests. -/
def raceRun (now : Int) (address : String) (schedule : List Bool) (s : RaceState) : RaceState :=
  schedule.foldl (fun s w => raceStep now address w s) s

/-- A syntactically valid all-lowercase address used in concrete scenarios. -/
def addrA : String := "0xaaaaaaaaaaaaaaaaaaaaaaaaaaaaaaaaaaaaaaaa"

/-- The address of the spec's happy-path scenario, verbatim: `0x` followed
by only 38 hexadecimal digits. -/
def specScenarioAddr : String := "0x742d35Cc6635Bb000000000000000000000000"

/-- The spec's happy-path scenario address padded to a syntactically valid
40-hex-digit address. -/
def c9ValidAddr : String := "0x742d35cc6635bb00000000000000000000000000"

end Faucet

namespace Faucet

theorem hexChar_iff (c : Char) : isHexDigitChar c = true ↔ SpecHexDigit c := by
  simp [isHexDigitChar, SpecHexDigit, Bool.or_eq_true, Bool.and_eq_true, decide_eq_true_eq,
    or_assoc]

theorem ne_empty_of_valid (address : String) (h : ethersIsAddress address = true) :
    address ≠ "" := by
  intro he
  subst he
  exact absurd h (by decide)

theorem faucetHandler_guards3 (env : ChainEnv) (cooldowns : CooldownMap) (now : Int)
    (address : String) (hne : address ≠ "") (hval : ethersIsAddress address = true)
    (hcd : checkAddressCooldown cooldowns now address = true) :
    faucetHandler env cooldowns now (some address) =
      if env.faucetBalance < MIN_BALANCE then
        ⟨⟨503, .failure "Faucet is running low on funds. Please contact the administrator."⟩,
          cooldowns, []⟩
      else if env.recipientBalance > maxRecipientBalance then
        ⟨⟨400, .failure "Recipient address already has sufficient funds"⟩, cooldowns, []⟩
      else
        match env.broadcast with
        | .err code => ⟨errorResponse code, cooldowns, [.broadcastAttempt]⟩
        | .ok txHash =>
            match env.confirm with
            | .err code =>
                ⟨errorResponse code, updateAddressCooldown cooldowns now address,
                  [Event.broadcastAttempt, Event.cooldownRecorded address now,
                    Event.confirmAttempt]⟩
            | .ok blockNumber =>
                ⟨⟨200, Body.success txHash (formatEther FAUCET_AMOUNT) blockNumber⟩,
                  updateAddressCooldown cooldowns now address,
                  [Event.broadcastAttempt, Event.cooldownRecorded address now,
                    Event.confirmAttempt]⟩ := by
  simp only [faucetHandler, Option.getD_some]
  rw [if_neg hne, if_neg (by simp [hval]), if_neg (by simp [hcd])]

theorem faucetHandler_shape (env : ChainEnv) (cooldowns : CooldownMap) (now : Int)
    (addressField : Option String) :
    (faucetHandler env cooldowns now addressField).cooldowns = cooldowns ∨
    (∃ code, (faucetHandler env cooldowns now addressField).response = errorResponse code) ∨
    (faucetHandler env cooldowns now addressField).response.status = 200 := by
  cases addressField with
  | none => exact Or.inl rfl
  | some address =>
    by_cases hne : address = ""
    · left
      simp [faucetHandler, hne]
    · by_cases hval : ethersIsAddress address = true
      · by_cases hcd : checkAddressCooldown cooldowns now address = true
        · rw [faucetHandler_guards3 env cooldowns now address hne hval hcd]
          by_cases hres : env.faucetBalance < MIN_BALANCE
          · rw [if_pos hres]
            exact Or.inl rfl
          · rw [if_neg hres]
            by_cases hrec : env.recipientBalance > maxRecipientBalance
            · rw [if_pos hrec]
              exact Or.inl rfl
            · rw [if_neg hrec]
              cases env.broadcast with
              | err code => exact Or.inl rfl
              | ok txHash =>
                cases env.confirm with
                | err code => exact Or.inr (Or.inl ⟨code, rfl⟩)
                | ok blockNumber => exact Or.inr (Or.inr rfl)
        · left
          have hcd' : checkAddressCooldown cooldowns now address = false := by
            revert hcd
            cases checkAddressCooldown cooldowns now address <;> simp
          simp [faucetHandler, hne, hval, hcd']
      · left
        have hval' : ethersIsAddress address = false := by
          revert hval
          cases ethersIsAddress address <;> simp
        simp [faucetHandler, hne, hval']

/-- C1 counterexample: with the recipient's balance exactly equal to the
5 ETH ceiling and every other precondition satisfied, the handler does not
reject with RecipientAlreadyFunded — the guard on line 280 is the strict
`recipientBalance > maxRecipientBalance` — so the request succeeds with 200
and a transfer is attempted, contradicting the claim that balance = ceiling
is rejected. -/
theorem c1_ceiling_equality_counterexample :
    (faucetHandler ⟨MIN_BALANCE, maxRecipientBalance, .ok "0xh", .ok 7⟩ CooldownMap.empty
        1700000000000 (some addrA)).response = ⟨200, .success "0xh" "0.1" 7⟩ ∧
    (faucetHandler ⟨MIN_BALANCE, maxRecipientBalance, .ok "0xh", .ok 7⟩ CooldownMap.empty
        1700000000000 (some addrA)).response ≠
      ⟨400, .failure "Recipient address already has sufficient funds"⟩ ∧
    (faucetHandler ⟨MIN_BALANCE, maxRecipientBalance, .ok "0xh", .ok 7⟩ CooldownMap.empty
        1700000000000 (some addrA)).events ≠ [] := by
  refine ⟨by decide, by decide, by decide⟩

/-- C1 (amended): when the request passes address validation, the cooldown
check and the reserve check, it is rejected with RecipientAlreadyFunded
(HTTP 400, body error "Recipient address already has sufficient funds") if
and only if the recipient's balance STRICTLY exceeds the 5 ETH ceiling, and
in that case no transfer is attempted; a recipient whose balance equals the
ceiling exactly is served. -/
theorem c1_recipient_ceiling_strict (env : ChainEnv) (cooldowns : CooldownMap) (now : Int)
    (address : String) (hval : ethersIsAddress address = true)
    (hcd : checkAddressCooldown cooldowns now address = true)
    (hres : MIN_BALANCE ≤ env.faucetBalance) :
    ((faucetHandler env cooldowns now (some address)).response =
        ⟨400, .failure "Recipient address already has sufficient funds"⟩ ↔
      maxRecipientBalance < env.recipientBalance) ∧
    (maxRecipientBalance < env.recipientBalance →
      (faucetHandler env cooldowns now (some address)).events = []) := by
  rw [faucetHandler_guards3 env cooldowns now address (ne_empty_of_valid address hval) hval hcd,
    if_neg (Nat.not_lt.mpr hres)]
  by_cases hrec : maxRecipientBalance < env.recipientBalance
  · rw [if_pos hrec]
    exact ⟨by simp [hrec], fun _ => rfl⟩
  · rw [if_neg hrec]
    refine ⟨?_, fun h => absurd h hrec⟩
    cases hb : env.broadcast with
    | err code => exact iff_of_false (by cases code <;> simp [errorResponse]) hrec
    | ok txHash =>
      cases hc : env.confirm with
      | err code => exact iff_of_false (by cases code <;> simp [errorResponse]) hrec
      | ok blockNumber => simp [hrec]

/-- C1 witness: a recipient holding 6 ETH is rejected with
RecipientAlreadyFunded and no transfer is attempted. -/
theorem c1_recipient_ceiling_strict_witness :
    (faucetHandler ⟨MIN_BALANCE, 6000000000000000000, .err .other, .err .other⟩
        CooldownMap.empty 0 (some addrA)).response =
      ⟨400, .failure "Recipient address already has sufficient funds"⟩ ∧
    (faucetHandler ⟨MIN_BALANCE, 6000000000000000000, .err .other, .err .other⟩
        CooldownMap.empty 0 (some addrA)).events = [] := by
  have h := c1_recipient_ceiling_strict ⟨MIN_BALANCE, 6000000000000000000, .err .other,
    .err .other⟩ CooldownMap.empty 0 addrA (by decide) (by decide) (by decide)
  exact ⟨h.1.mpr (by decide), h.2 (by decide)⟩

/-- C2: for an address with recorded (necessarily positive, being a
`Date.now()` value) last-disbursement timestamp t, a request at time `now`
passes the cooldown check iff `now - t` is at least the window of
3600 seconds (3600000 ms); the boundary `now - t = window` is eligible, and
an address with no recorded entry is always eligible. -/
theorem c2_cooldown_eligibility (cooldowns : CooldownMap) (now t : Int) (address : String)
    (ht : 0 < t) :
    (cooldowns address.toLower = some t →
      (checkAddressCooldown cooldowns now address = true ↔ ADDRESS_COOLDOWN ≤ now - t)) ∧
    (cooldowns address.toLower = none → checkAddressCooldown cooldowns now address = true) := by
  constructor
  · intro hsome
    unfold checkAddressCooldown
    rw [hsome]
    show (if t ≠ 0 ∧ now - t < ADDRESS_COOLDOWN then false else true) = true ↔
      ADDRESS_COOLDOWN ≤ now - t
    have hne : t ≠ 0 := ne_of_gt ht
    by_cases hlt : now - t < ADDRESS_COOLDOWN
    · rw [if_pos ⟨hne, hlt⟩]
      simp only [Bool.false_eq_true, false_iff]
      omega
    · rw [if_neg (fun h => hlt h.2)]
      simp only [true_iff]
      omega
  · intro hnone
    unfold checkAddressCooldown
    rw [hnone]

/-- C2 witness: an entry recorded at t = 5 and a request exactly at the
boundary now = 3600005 (so now - t = 3600000 ms, the window) is eligible. -/
theorem c2_cooldown_eligibility_witness :
    checkAddressCooldown (fun _ => some 5) 3600005 "0xAB" = true :=
  ((c2_cooldown_eligibility (fun _ => some 5) 3600005 5 "0xAB" (by decide)).1 rfl).mpr
    (by decide)

end Faucet

namespace Faucet

/-- C3 counterexample: with the faucet reserve exactly equal to the 1 ETH
minimum, the guard on line 270 (`faucetBalance < MIN_BALANCE`) does not
fire, so the request succeeds with 200 and a transfer is attempted,
contradicting the claim that reserve = threshold is rejected with
ReserveLow. -/
theorem c3_reserve_equality_counterexample :
    (faucetHandler ⟨MIN_BALANCE, 0, .ok "0xh2", .ok 9⟩ CooldownMap.empty
        1700000000000 (some addrA)).response = ⟨200, .success "0xh2" "0.1" 9⟩ ∧
    (faucetHandler ⟨MIN_BALANCE, 0, .ok "0xh2", .ok 9⟩ CooldownMap.empty
        1700000000000 (some addrA)).response ≠
      ⟨503, .failure "Faucet is running low on funds. Please contact the administrator."⟩ ∧
    (faucetHandler ⟨MIN_BALANCE, 0, .ok "0xh2", .ok 9⟩ CooldownMap.empty
        1700000000000 (some addrA)).events ≠ [] := by
  refine ⟨by decide, by decide, by decide⟩

/-- C3 (amended): for a request that passes address validation and the
cooldown check, the ReserveLow rejection (HTTP 503) occurs if and only if
the reserve is STRICTLY below the 1 ETH minimum; at exact equality the
transfer proceeds. When the rejection occurs no transfer is attempted. -/
theorem c3_reserve_strict (env : ChainEnv) (cooldowns : CooldownMap) (now : Int)
    (address : String) (hval : ethersIsAddress address = true)
    (hcd : checkAddressCooldown cooldowns now address = true) :
    ((faucetHandler env cooldowns now (some address)).response =
        ⟨503, .failure "Faucet is running low on funds. Please contact the administrator."⟩ ↔
      env.faucetBalance < MIN_BALANCE) ∧
    (env.faucetBalance < MIN_BALANCE →
      (faucetHandler env cooldowns now (some address)).events = []) := by
  rw [faucetHandler_guards3 env cooldowns now address (ne_empty_of_valid address hval) hval hcd]
  by_cases hres : env.faucetBalance < MIN_BALANCE
  · rw [if_pos hres]
    exact ⟨by simp [hres], fun _ => rfl⟩
  · rw [if_neg hres]
    refine ⟨?_, fun h => absurd h hres⟩
    by_cases hrec : env.recipientBalance > maxRecipientBalance
    · rw [if_pos hrec]
      exact iff_of_false (by simp) hres
    · rw [if_neg hrec]
      cases hb : env.broadcast with
      | err code => exact iff_of_false (by cases code <;> simp [errorResponse]) hres
      | ok txHash =>
        cases hc : env.confirm with
        | err code => exact iff_of_false (by cases code <;> simp [errorResponse]) hres
        | ok blockNumber => simp [hres]

/-- C3 witness: a reserve one wei below the minimum is rejected with
ReserveLow and no transfer is attempted. -/
theorem c3_reserve_strict_witness :
    (faucetHandler ⟨999999999999999999, 0, .err .other, .err .other⟩
        CooldownMap.empty 0 (some addrA)).response =
      ⟨503, .failure "Faucet is running low on funds. Please contact the administrator."⟩ ∧
    (faucetHandler ⟨999999999999999999, 0, .err .other, .err .other⟩
        CooldownMap.empty 0 (some addrA)).events = [] := by
  have h := c3_reserve_strict ⟨999999999999999999, 0, .err .other, .err .other⟩
    CooldownMap.empty 0 addrA (by decide) (by decide)
  exact ⟨h.1.mpr (by decide), h.2 (by decide)⟩

/-- C4 counterexample: with the reserve at 0 (far below the minimum) but a
malformed address, the handler answers 400 "Invalid Ethereum address", not
the 503 ReserveLow the claim requires for every request regardless of
address validity — the validity and cooldown guards run first (lines
253-266), before the balance read (line 269). -/
theorem c4_invalid_address_counterexample :
    (faucetHandler ⟨0, 0, .err .other, .err .other⟩ CooldownMap.empty 0
        (some "not-an-address")).response = ⟨400, .failure "Invalid Ethereum address"⟩ ∧
    (faucetHandler ⟨0, 0, .err .other, .err .other⟩ CooldownMap.empty 0
        (some "not-an-address")).response.status ≠ 503 := by
  exact ⟨by decide, by decide⟩

/-- C4 (amended): if the faucet reserve is below the minimum threshold,
every request that passes address validation and the cooldown check is
rejected with ReserveLow (HTTP 503) and no transfer is attempted, the
cooldown map being left unchanged; requests failing the earlier
address-validity or cooldown guards receive those guards' errors instead. -/
theorem c4_reserve_low_after_guards (env : ChainEnv) (cooldowns : CooldownMap) (now : Int)
    (address : String) (hval : ethersIsAddress address = true)
    (hcd : checkAddressCooldown cooldowns now address = true)
    (hres : env.faucetBalance < MIN_BALANCE) :
    (faucetHandler env cooldowns now (some address)).response =
      ⟨503, .failure "Faucet is running low on funds. Please contact the administrator."⟩ ∧
    (faucetHandler env cooldowns now (some address)).events = [] ∧
    (faucetHandler env cooldowns now (some address)).cooldowns = cooldowns := by
  rw [faucetHandler_guards3 env cooldowns now address (ne_empty_of_valid address hval) hval hcd,
    if_pos hres]
  exact ⟨rfl, rfl, rfl⟩

/-- C4 witness: a valid, fresh address with the reserve at 0.5 ETH gets
ReserveLow and no transfer. -/
theorem c4_reserve_low_after_guards_witness :
    (faucetHandler ⟨500000000000000000, 0, .ok "0xh3", .ok 3⟩ CooldownMap.empty 0
        (some addrA)).response =
      ⟨503, .failure "Faucet is running low on funds. Please contact the administrator."⟩ ∧
    (faucetHandler ⟨500000000000000000, 0, .ok "0xh3", .ok 3⟩ CooldownMap.empty 0
        (some addrA)).events = [] ∧
    (faucetHandler ⟨500000000000000000, 0, .ok "0xh3", .ok 3⟩ CooldownMap.empty 0
        (some addrA)).cooldowns = CooldownMap.empty :=
  c4_reserve_low_after_guards ⟨500000000000000000, 0, .ok "0xh3", .ok 3⟩ CooldownMap.empty 0
    addrA (by decide) (by decide) (by decide)

/-- C5: in every successful disbursement (all guards pass and the broadcast
succeeds), the trace is exactly broadcast, then the cooldown write with the
current timestamp, then the confirmation wait — so the cooldown entry is
recorded immediately after the broadcast and before the confirmation wait —
and the final cooldown map carries the update whatever the confirmation
outcome (the env quantifies over both success and failure of
`transaction.wait`), so a slow or failed confirmation never reverts it. -/
theorem c5_cooldown_recorded_at_broadcast (env : ChainEnv) (cooldowns : CooldownMap)
    (now : Int) (address : String) (txHash : String)
    (hval : ethersIsAddress address = true)
    (hcd : checkAddressCooldown cooldowns now address = true)
    (hres : MIN_BALANCE ≤ env.faucetBalance)
    (hrec : env.recipientBalance ≤ maxRecipientBalance)
    (hb : env.broadcast = .ok txHash) :
    (faucetHandler env cooldowns now (some address)).events =
      [Event.broadcastAttempt, Event.cooldownRecorded address now, Event.confirmAttempt] ∧
    (faucetHandler env cooldowns now (some address)).cooldowns =
      updateAddressCooldown cooldowns now address := by
  rw [faucetHandler_guards3 env cooldowns now address (ne_empty_of_valid address hval) hval hcd,
    if_neg (Nat.not_lt.mpr hres), if_neg (Nat.not_lt.mpr hrec), hb]
  cases env.confirm <;> exact ⟨rfl, rfl⟩

/-- C5 witness: the confirmation wait fails, yet the trace shows the
cooldown write between broadcast and confirmation and the map keeps the
entry. -/
theorem c5_cooldown_recorded_at_broadcast_witness :
    (faucetHandler ⟨MIN_BALANCE, 0, .ok "0xh4", .err .other⟩ CooldownMap.empty
        1700000000000 (some addrA)).events =
      [Event.broadcastAttempt, Event.cooldownRecorded addrA 1700000000000,
        Event.confirmAttempt] ∧
    (faucetHandler ⟨MIN_BALANCE, 0, .ok "0xh4", .err .other⟩ CooldownMap.empty
        1700000000000 (some addrA)).cooldowns =
      updateAddressCooldown CooldownMap.empty 1700000000000 addrA :=
  c5_cooldown_recorded_at_broadcast ⟨MIN_BALANCE, 0, .ok "0xh4", .err .other⟩
    CooldownMap.empty 1700000000000 addrA "0xh4" (by decide) (by decide) (by decide)
    (by decide) rfl

/-- C6 counterexample: the broadcast succeeds but `transaction.wait(1)`
throws; the handler's catch block answers 500 "Internal server error" — an
error response, not the claimed 200 success carrying the transaction hash
without a block reference. -/
theorem c6_confirm_failure_counterexample :
    (faucetHandler ⟨MIN_BALANCE, 0, .ok "0xbroadcast", .err .other⟩ CooldownMap.empty 0
        (some addrA)).response = ⟨500, .failure "Internal server error"⟩ ∧
    (faucetHandler ⟨MIN_BALANCE, 0, .ok "0xbroadcast", .err .other⟩ CooldownMap.empty 0
        (some addrA)).response.status ≠ 200 := by
  exact ⟨by decide, by decide⟩

/-- C6 (amended): if the confirmation wait fails after a successful
broadcast, the endpoint returns the error response the catch block maps
from the thrown code (503, 502 or 500), never a success response; the
cooldown update survives. (The code has no bounded wait either: `wait(1)`
that never resolves blocks the handler; only the thrown-error behaviour is
representable here.) -/
theorem c6_confirm_failure_maps_to_error (env : ChainEnv) (cooldowns : CooldownMap)
    (now : Int) (address : String) (txHash : String) (code : ErrCode)
    (hval : ethersIsAddress address = true)
    (hcd : checkAddressCooldown cooldowns now address = true)
    (hres : MIN_BALANCE ≤ env.faucetBalance)
    (hrec : env.recipientBalance ≤ maxRecipientBalance)
    (hb : env.broadcast = .ok txHash) (hc : env.confirm = .err code) :
    (faucetHandler env cooldowns now (some address)).response = errorResponse code ∧
    (faucetHandler env cooldowns now (some address)).response.status ≠ 200 ∧
    (faucetHandler env cooldowns now (some address)).cooldowns =
      updateAddressCooldown cooldowns now address := by
  rw [faucetHandler_guards3 env cooldowns now address (ne_empty_of_valid address hval) hval hcd,
    if_neg (Nat.not_lt.mpr hres), if_neg (Nat.not_lt.mpr hrec), hb, hc]
  exact ⟨rfl, by cases code <;> simp [errorResponse], rfl⟩

/-- C6 witness: broadcast succeeds, the wait throws NETWORK_ERROR, and the
response is the 502 mapping while the cooldown entry stays recorded. -/
theorem c6_confirm_failure_maps_to_error_witness :
    (faucetHandler ⟨MIN_BALANCE, 0, .ok "0xh5", .err .networkError⟩ CooldownMap.empty 7
        (some addrA)).response = errorResponse .networkError ∧
    (faucetHandler ⟨MIN_BALANCE, 0, .ok "0xh5", .err .networkError⟩ CooldownMap.empty 7
        (some addrA)).response.status ≠ 200 ∧
    (faucetHandler ⟨MIN_BALANCE, 0, .ok "0xh5", .err .networkError⟩ CooldownMap.empty 7
        (some addrA)).cooldowns = updateAddressCooldown CooldownMap.empty 7 addrA :=
  c6_confirm_failure_maps_to_error ⟨MIN_BALANCE, 0, .ok "0xh5", .err .networkError⟩
    CooldownMap.empty 7 addrA "0xh5" .networkError (by decide) (by decide) (by decide)
    (by decide) rfl rfl

/-- C7: the claim requires that two concurrent requests for the same fresh
address can never both pass the cooldown check; the code violates it. The
check (line 262) and the write (line 298) are separated by awaited chain
calls, so the event loop may interleave the two handlers: under the
schedule where each request runs its synchronous cooldown check before
either broadcasts, BOTH reach `passedCheck`, and under the longer schedule
both complete the disbursement and record the cooldown — a double
disbursement. -/
theorem c7_race_both_pass_check :
    (raceRun 1700000000000 addrA [true, false]
        ⟨CooldownMap.empty, .start, .start⟩).req1 = Phase.passedCheck ∧
    (raceRun 1700000000000 addrA [true, false]
        ⟨CooldownMap.empty, .start, .start⟩).req2 = Phase.passedCheck ∧
    (raceRun 1700000000000 addrA [true, false, true, false]
        ⟨CooldownMap.empty, .start, .start⟩).req1 = Phase.recorded ∧
    (raceRun 1700000000000 addrA [true, false, true, false]
        ⟨CooldownMap.empty, .start, .start⟩).req2 = Phase.recorded := by
  exact ⟨rfl, rfl, rfl, rfl⟩

/-- C8: the frontend address validator accepts exactly the regular language
of the address shape — `0x` followed by exactly 40 hexadecimal digits in
any casing — returning true on every string of that shape and false on
every other string (empty, wrong length, non-hex characters, missing
prefix). -/
theorem c8_validator_exact_language (s : String) :
    isValidAddress s = true ↔ AddressShape s := by
  obtain ⟨l⟩ := s
  rcases l with _ | ⟨c1, _ | ⟨c2, rest⟩⟩
  · constructor
    · intro h
      cases h
    · rintro ⟨t, ht, -, -⟩
      have ht' : ([] : List Char) = '0' :: 'x' :: t := ht
      cases ht'
  · constructor
    · intro h
      cases h
    · rintro ⟨t, ht, -, -⟩
      have ht' : [c1] = '0' :: 'x' :: t := ht
      simp at ht'
  · constructor
    · intro h
      have h' : (c1 == '0' && c2 == 'x' && rest.length == 40 && rest.all isHexDigitChar)
          = true := h
      simp only [Bool.and_eq_true, beq_iff_eq, List.all_eq_true] at h'
      obtain ⟨⟨⟨h1, h2⟩, hlen⟩, hall⟩ := h'
      subst h1; subst h2
      exact ⟨rest, rfl, hlen, fun c hc => (hexChar_iff c).mp (hall c hc)⟩
    · rintro ⟨t, ht, hlen, hall⟩
      have ht' : c1 :: c2 :: rest = '0' :: 'x' :: t := ht
      obtain ⟨h1, h2, h3⟩ : c1 = '0' ∧ c2 = 'x' ∧ rest = t := by
        injection ht' with ha hb
        injection hb with hb hc
        exact ⟨ha, hb, hc⟩
      subst h1; subst h2; subst h3
      show ('0' == '0' && 'x' == 'x' && rest.length == 40 && rest.all isHexDigitChar) = true
      have hc : (rest.length == 40) = true := by simp [hlen]
      have hd : rest.all isHexDigitChar = true := by
        rw [List.all_eq_true]
        exact fun c hc => (hexChar_iff c).mpr (hall c hc)
      simp [hc, hd]

/-- C9 counterexample: the spec's scenario address has only 38 hexadecimal
digits after `0x`, so it fails address validation and the request is
answered 400 "Invalid Ethereum address", not the claimed 200 with amount
"0.1" — even with reserve 10 ETH, recipient balance 0 and a fresh cooldown
map. -/
theorem c9_scenario_address_counterexample :
    (faucetHandler ⟨10000000000000000000, 0, .ok "0xh6", .ok 1⟩ CooldownMap.empty
        1700000000000 (some specScenarioAddr)).response =
      ⟨400, .failure "Invalid Ethereum address"⟩ ∧
    (faucetHandler ⟨10000000000000000000, 0, .ok "0xh6", .ok 1⟩ CooldownMap.empty
        1700000000000 (some specScenarioAddr)).response.status ≠ 200 ∧
    isValidAddress specScenarioAddr = false ∧
    (specScenarioAddr.data.drop 2).length = 38 := by
  exact ⟨by decide, by decide, by decide, by decide⟩

/-- C9 (amended): the scenario holds once the address is a syntactically
valid 40-hex-digit one: with reserve 10 ETH, recipient balance 0, a fresh
cooldown map, and a successful broadcast and confirmation, the response is
HTTP 200 with amount "0.1". -/
theorem c9_scenario_with_valid_address :
    (faucetHandler ⟨10000000000000000000, 0, .ok "0xhash", .ok 42⟩ CooldownMap.empty
        1700000000000 (some c9ValidAddr)).response =
      ⟨200, .success "0xhash" "0.1" 42⟩ := by
  decide

/-- C10: whenever the handler rejects a request before the broadcast step —
missing address, invalid address, cooldown active, reserve below threshold,
or recipient already funded — the cooldown map after the request is exactly
the map before it: a rejected request never consumes or refreshes any
address's window. -/
theorem c10_rejection_leaves_cooldowns (env : ChainEnv) (cooldowns : CooldownMap)
    (now : Int) (addressField : Option String)
    (hrej : (faucetHandler env cooldowns now addressField).response =
        ⟨400, .failure "Address is required"⟩ ∨
      (faucetHandler env cooldowns now addressField).response =
        ⟨400, .failure "Invalid Ethereum address"⟩ ∨
      (faucetHandler env cooldowns now addressField).response =
        ⟨429, .failure "This address has already requested funds recently. Please wait 1 hour."⟩ ∨
      (faucetHandler env cooldowns now addressField).response =
        ⟨503, .failure "Faucet is running low on funds. Please contact the administrator."⟩ ∨
      (faucetHandler env cooldowns now addressField).response =
        ⟨400, .failure "Recipient address already has sufficient funds"⟩) :
    (faucetHandler env cooldowns now addressField).cooldowns = cooldowns := by
  rcases faucetHandler_shape env cooldowns now addressField with h | ⟨code, h⟩ | h
  · exact h
  · exfalso
    cases code <;> rw [h] at hrej <;>
      rcases hrej with h' | h' | h' | h' | h' <;> exact absurd h' (by decide)
  · exfalso
    rcases hrej with h' | h' | h' | h' | h' <;> rw [h'] at h <;> exact absurd h (by decide)

/-- C10 witness: a request with no address field is rejected and the
cooldown map is untouched. -/
theorem c10_rejection_leaves_cooldowns_witness :
    (faucetHandler ⟨0, 0, .err .other, .err .other⟩ CooldownMap.empty 0 none).cooldowns =
      CooldownMap.empty :=
  c10_rejection_leaves_cooldowns ⟨0, 0, .err .other, .err .other⟩ CooldownMap.empty 0 none
    (Or.inl rfl)

end Faucet
